import Mathlib

/-!
Verification of the invoice-parser pipeline (`src/parser.py`).

The Python module is shallowly embedded: strings become `List Char`,
`json.loads` becomes an executable recursive-descent decoder over a `Json`
inductive, the PDF/file/model collaborators become explicit environment
data, and the dictionary returned by `parse_invoice_with_claude` becomes a
`Json` value (error dictionaries are `Json.obj` values with an `error`
key, exactly as the Python code builds them).
-/

namespace InvoiceParser

/-- Characters of a Python string; the whole embedding works on `List Char`. -/
abbrev Str := List Char

/-! ### Python string primitives

`breakOn sep s` models the search for the first occurrence of `sep` in
`s`: it returns `some (a, b)` when `s = a ++ sep ++ b` with `a` shortest,
and `none` when `sep` does not occur.  Python's `sep in s`,
`s.split(sep)[0]`, and `s.split(sep)[1]` are all expressed through it. -/

/-- Does `p` start `s`?  (Executable prefix test on character lists.) -/
def isPre : Str → Str → Bool
  | [], _ => true
  | _ :: _, [] => false
  | p :: ps, x :: xs => p == x && isPre ps xs

def breakOn (sep : Str) : Str → Option (Str × Str)
  | [] => if isPre sep [] then some ([], []) else none
  | c :: rest =>
    if isPre sep (c :: rest) then some ([], (c :: rest).drop sep.length)
    else (breakOn sep rest).map (fun p => (c :: p.1, p.2))

/-- Python `sep in s` (substring containment test). -/
def containsSub (sep s : Str) : Bool := (breakOn sep s).isSome

/-- Python `s.split(sep)[0]`: everything before the first occurrence of
`sep`, or all of `s` when `sep` does not occur. -/
def takeUntil (sep s : Str) : Str :=
  match breakOn sep s with
  | some p => p.1
  | none => s

/-- Python `s.strip()`: drop leading and trailing whitespace. -/
def pyStrip (s : Str) : Str :=
  ((s.dropWhile Char.isWhitespace).reverse.dropWhile Char.isWhitespace).reverse

/-! ### Fence stripping (`parser.py` lines 184-188) -/

/-- The language-tagged fence delimiter `"```json"`. -/
def fenceJson : Str := ['\x60', '\x60', '\x60', 'j', 's', 'o', 'n']

/-- The bare fence delimiter `"```"`. -/
def ticks : Str := ['\x60', '\x60', '\x60']

/-- Lines 185-188 of `parser.py`:

    if "```json" in response_text:
        response_text = response_text.split("```json")[1].split("```")[0]
    elif "```" in response_text:
        response_text = response_text.split("```")[1].split("```")[0]
-/
def stripFences (s : Str) : Str :=
  match breakOn fenceJson s with
  | some p => takeUntil ticks (takeUntil fenceJson p.2)
  | none =>
    match breakOn ticks s with
    | some p => takeUntil ticks (takeUntil ticks p.2)
    | none => s

/-- A reply wrapped in a language-tagged markdown fence:
`"```json\n" ++ c ++ "\n```"`. -/
def wrapTagged (c : Str) : Str := fenceJson ++ '\n' :: c ++ '\n' :: ticks

/-- A reply wrapped in a bare markdown fence: `"```\n" ++ c ++ "\n```"`. -/
def wrapBare (c : Str) : Str := ticks ++ '\n' :: c ++ '\n' :: ticks

/-- The exact text handed to the JSON decoder for a given reply: the
fence-stripped reply, whitespace-stripped (line 191). -/
def decoderInput (r : Str) : Str := pyStrip (stripFences r)

/-! ### JSON values and decoding (model of Python `json.loads`) -/

/-- Decoded JSON values.  Python `json.loads` yields `None`, `bool`,
`int`/`float`, `str`, `list`, and `dict`; numbers are collapsed to `ℚ`. -/
inductive Json where
  | null : Json
  | bool (b : Bool) : Json
  | num (q : ℚ) : Json
  | str (s : Str) : Json
  | arr (elems : List Json) : Json
  | obj (fields : List (Str × Json)) : Json

/-- JSON inter-token whitespace (RFC 8259, as accepted by `json.loads`). -/
def isJsonWS (c : Char) : Bool := c == ' ' || c == '\t' || c == '\n' || c == '\r'

/-- Skip inter-token whitespace. -/
def skipWS (s : Str) : Str := s.dropWhile isJsonWS

/-- Numeric value of a decimal digit character. -/
def digVal (c : Char) : Nat := c.toNat - 48

/-- Hexadecimal digit test. -/
def isHexDig (c : Char) : Bool :=
  c.isDigit || ('a' ≤ c && c ≤ 'f') || ('A' ≤ c && c ≤ 'F')

/-- Numeric value of a hexadecimal digit character. -/
def hexVal (c : Char) : Nat :=
  if c.isDigit then c.toNat - 48
  else if 'a' ≤ c ∧ c ≤ 'f' then c.toNat - 87
  else c.toNat - 55

/-- Accumulate a digit list into a natural number. -/
def digitsToNat (ds : Str) : Nat := ds.foldl (fun a c => a * 10 + digVal c) 0

/-- Decode a JSON string body (the opening quote already consumed),
returning the decoded characters and the remaining input. -/
def parseStr : Str → Except Str (Str × Str)
  | [] => .error ("Unterminated string".data)
  | '"' :: r => .ok ([], r)
  | '\\' :: '"' :: r => (parseStr r).map (fun p => ('"' :: p.1, p.2))
  | '\\' :: '\\' :: r => (parseStr r).map (fun p => ('\\' :: p.1, p.2))
  | '\\' :: '/' :: r => (parseStr r).map (fun p => ('/' :: p.1, p.2))
  | '\\' :: 'b' :: r => (parseStr r).map (fun p => ('\x08' :: p.1, p.2))
  | '\\' :: 'f' :: r => (parseStr r).map (fun p => ('\x0c' :: p.1, p.2))
  | '\\' :: 'n' :: r => (parseStr r).map (fun p => ('\n' :: p.1, p.2))
  | '\\' :: 'r' :: r => (parseStr r).map (fun p => ('\r' :: p.1, p.2))
  | '\\' :: 't' :: r => (parseStr r).map (fun p => ('\t' :: p.1, p.2))
  | '\\' :: 'u' :: h1 :: h2 :: h3 :: h4 :: r =>
    if isHexDig h1 && isHexDig h2 && isHexDig h3 && isHexDig h4 then
      let v := ((hexVal h1 * 16 + hexVal h2) * 16 + hexVal h3) * 16 + hexVal h4
      (parseStr r).map (fun p => (Char.ofNat v :: p.1, p.2))
    else .error ("Invalid unicode escape".data)
  | '\\' :: _ => .error ("Invalid escape".data)
  | c :: r => (parseStr r).map (fun p => (c :: p.1, p.2))

/-- Decode a JSON number starting at the head of the input. -/
def parseNum (s : Str) : Except Str (Json × Str) :=
  let (neg, s1) := match s with
    | '-' :: r => (true, r)
    | _ => (false, s)
  let (ds, s2) := s1.span Char.isDigit
  if ds.isEmpty then .error ("Expecting value".data)
  else
    let (fds, s3) := match s2 with
      | '.' :: r => let p := r.span Char.isDigit; (some p.1, p.2)
      | _ => (none, s2)
    if fds = some [] then .error ("Expecting fraction digits".data)
    else
      let (hasExp, epos, eds, s4) := match s3 with
        | 'e' :: '-' :: r => let p := r.span Char.isDigit; (true, false, p.1, p.2)
        | 'e' :: '+' :: r => let p := r.span Char.isDigit; (true, true, p.1, p.2)
        | 'e' :: r => let p := r.span Char.isDigit; (true, true, p.1, p.2)
        | 'E' :: '-' :: r => let p := r.span Char.isDigit; (true, false, p.1, p.2)
        | 'E' :: '+' :: r => let p := r.span Char.isDigit; (true, true, p.1, p.2)
        | 'E' :: r => let p := r.span Char.isDigit; (true, true, p.1, p.2)
        | _ => (false, true, [], s3)
      if hasExp ∧ eds.isEmpty then .error ("Expecting exponent digits".data)
      else
        let frac := fds.getD []
        let scaled : ℚ :=
          if fds.isNone ∧ ¬hasExp then (digitsToNat ds : ℚ)
          else
            let mant : ℚ := (digitsToNat (ds ++ frac) : ℚ) / (10 : ℚ) ^ frac.length
            if hasExp then
              if epos then mant * (10 : ℚ) ^ digitsToNat eds
              else mant / (10 : ℚ) ^ digitsToNat eds
            else mant
        .ok (.num (if neg then -scaled else scaled), s4)

mutual

/-- Decode one JSON value at the head of the input (fuelled recursion). -/
def parseVal : Nat → Str → Except Str (Json × Str)
  | 0, _ => .error ("Too deeply nested".data)
  | _ + 1, 'n' :: 'u' :: 'l' :: 'l' :: r => .ok (.null, r)
  | _ + 1, 't' :: 'r' :: 'u' :: 'e' :: r => .ok (.bool true, r)
  | _ + 1, 'f' :: 'a' :: 'l' :: 's' :: 'e' :: r => .ok (.bool false, r)
  | _ + 1, '"' :: r => (parseStr r).map (fun p => (.str p.1, p.2))
  | f + 1, '[' :: r =>
    (match skipWS r with
     | ']' :: r2 => .ok (.arr [], r2)
     | r2 => (parseElems f r2).map (fun p => (.arr p.1, p.2)))
  | f + 1, '\x7b' :: r =>
    (match skipWS r with
     | '\x7d' :: r2 => .ok (.obj [], r2)
     | r2 => (parseMembers f r2).map (fun p => (.obj p.1, p.2)))
  | _ + 1, s => parseNum s

/-- Decode the elements of a non-empty JSON array (after `[` and
whitespace). -/
def parseElems : Nat → Str → Except Str (List Json × Str)
  | 0, _ => .error ("Too deeply nested".data)
  | f + 1, s =>
    match parseVal f s with
    | .error e => .error e
    | .ok (j, r) =>
      match skipWS r with
      | ',' :: r2 => (parseElems f (skipWS r2)).map (fun p => (j :: p.1, p.2))
      | ']' :: r2 => .ok ([j], r2)
      | _ => .error ("Expecting comma delimiter".data)

/-- Decode the members of a non-empty JSON object (after the opening
brace and whitespace). -/
def parseMembers : Nat → Str → Except Str (List (Str × Json) × Str)
  | 0, _ => .error ("Too deeply nested".data)
  | f + 1, s =>
    match s with
    | '"' :: r =>
      (match parseStr r with
       | .error e => .error e
       | .ok (k, r2) =>
         match skipWS r2 with
         | ':' :: r3 =>
           (match parseVal f (skipWS r3) with
            | .error e => .error e
            | .ok (v, r4) =>
              match skipWS r4 with
              | ',' :: r5 => (parseMembers f (skipWS r5)).map (fun p => ((k, v) :: p.1, p.2))
              | '\x7d' :: r5 => .ok ([(k, v)], r5)
              | _ => .error ("Expecting comma delimiter".data))
         | _ => .error ("Expecting colon delimiter".data))
    | _ => .error ("Expecting property name".data)

end

/-- Model of Python `json.loads`: decode one JSON document, rejecting
trailing garbage.  Failure carries the (abstracted) decoder message. -/
def jsonDecode (s : Str) : Except Str Json :=
  match parseVal (s.length + 1) (skipWS s) with
  | .error e => .error e
  | .ok (j, rest) => if (skipWS rest).isEmpty then .ok j else .error ("Extra data".data)

/-! ### Text extraction (`extract_text_from_pdf`, lines 28-45)

`PdfRead` is the outcome of `PdfReader(pdf_file)` plus the per-page
`page.extract_text()` calls: either the list of per-page text layers, or
an exception somewhere inside the `try` block. -/

inductive PdfRead where
  | ok (pages : List Str) : PdfRead
  | fail (msg : Str) : PdfRead

/-- Lines 28-45: concatenate each non-empty page text followed by a
newline, then strip; any exception yields the empty string. -/
def extract_text_from_pdf : PdfRead → Str
  | .fail _ => []
  | .ok pages =>
    pyStrip (pages.foldl (fun text t => if t.isEmpty then text else text ++ t ++ ['\n']) [])

/-- The newline-joined concatenation of the non-empty per-page texts (the
loop of lines 38-41 written without its accumulator). -/
def joinPages (pages : List Str) : Str :=
  (pages.filter (fun t => !t.isEmpty)).foldr (fun t acc => t ++ '\n' :: acc) []

/-! ### Image rendering (`pdf_to_base64_image`, lines 48-71) -/

/-- A file object with a shared read cursor (Python file/`BytesIO`). -/
structure FileState where
  bytes : Str
  cursor : Nat

/-- Outcome of `convert_from_bytes` plus the PNG re-encode of each page:
an exception, or a page list where each entry is the base64 PNG encoding
(`none` when `save`/encoding raises for that page). -/
inductive ConvertOut where
  | exn (msg : Str) : ConvertOut
  | images (imgs : List (Option Str)) : ConvertOut

/-- Lines 48-71: `read()` from the current cursor, `seek(0)`, convert the
first page, base64-encode it; every failure yields `none`. -/
def pdf_to_base64_image (convert : Str → ConvertOut) (f : FileState) : Option Str × FileState :=
  let pdf_bytes := f.bytes.drop f.cursor
  let fAfterRead : FileState := { f with cursor := f.bytes.length }
  let fReset : FileState := { fAfterRead with cursor := 0 }
  match convert pdf_bytes with
  | .exn _ => (none, fReset)
  | .images [] => (none, fReset)
  | .images (none :: _) => (none, fReset)
  | .images (some b64 :: _) => (some b64, fReset)

/-! ### The orchestrator (`parse_invoice_with_claude`, lines 74-197) -/

/-- The content of the single user message sent to the model: either the
text-mode prompt, or the image-mode text part plus the base64 image. -/
inductive ReqContent where
  | textMode (content : Str) : ReqContent
  | imageMode (promptText : Str) (imageData : Str) : ReqContent

/-- The collaborators of one invocation: the PDF reader outcome, the
shared file object, the page-conversion outcome, and the model client
(`client.messages.create`), which either raises or returns the reply
texts of `response.content`. -/
structure Env where
  pdfRead : PdfRead
  file : FileState
  convert : Str → ConvertOut
  callModel : ReqContent → Except Str (List Str)

/-- The observable outcome of one invocation: the returned dictionary
(`result`), plus instrumentation recording the request submitted to the
model (if any), the raw reply text consumed (if any), and how many times
the model client and `pdf_to_base64_image` were invoked. -/
structure ParseOut where
  result : Json
  request : Option ReqContent
  reply : Option Str
  modelCalls : Nat
  imageCalls : Nat

/-- Dictionary key `"error"`. -/
def errKey : Str := "error".data

/-- Dictionary key `"raw_response"`. -/
def rawKey : Str := "raw_response".data

/-- An error dictionary `{"error": m}` as built on lines 151 and 197. -/
def errorObj (m : Str) : Json := .obj [(errKey, .str m)]

/-- The error dictionary `{"error": m, "raw_response": raw}` built on
line 195. -/
def malformedObj (m raw : Str) : Json := .obj [(errKey, .str m), (rawKey, .str raw)]

/-- Line 151's message. -/
def noSignalMsg : Str :=
  "Could not process PDF - neither text nor image extraction worked".data

/-- Line 197's message prefix. -/
def apiFailPre : Str := "API call failed: ".data

/-- Line 195's message prefix. -/
def parseFailPre : Str := "Failed to parse Claude's response as JSON: ".data

/-- Message of `str(IndexError)` for `response.content[0]` on an empty content list. -/
def indexErrMsg : Str := "list index out of range".data

/-- The glue between the prompt and the extracted text (line 143). -/
def textSep : Str := "\n\nINVOICE TEXT:\n".data

/-- The trailing image-mode instruction (line 159). -/
def imageSuffix : Str := "\n\nSee the invoice image below:".data

/-- The fixed extraction prompt (lines 90-135), byte-for-byte. -/
def extraction_prompt : Str :=
  (String.intercalate "\n"
    [ ""
    , "    Extract the following information from this invoice. "
    , "    Return ONLY a valid JSON object with these fields (use null if not found):"
    , "    "
    , "    \x7b"
    , "        \"invoice_number\": \"string - the invoice/bill number\","
    , "        \"invoice_date\": \"string - date in YYYY-MM-DD format if possible\","
    , "        \"due_date\": \"string - payment due date in YYYY-MM-DD format if possible, null if not mentioned\","
    , "        \"vendor\": \x7b"
    , "            \"name\": \"string - seller/vendor company name\","
    , "            \"address\": \"string - vendor address\","
    , "            \"gstin\": \"string - GST identification number if present\""
    , "        \x7d,"
    , "        \"buyer\": \x7b"
    , "            \"name\": \"string - buyer/customer name\","
    , "            \"address\": \"string - buyer address\", "
    , "            \"gstin\": \"string - buyer GSTIN if present\""
    , "        \x7d,"
    , "        \"line_items\": ["
    , "            \x7b"
    , "                \"description\": \"string - item/service description\","
    , "                \"hsn_code\": \"string - HSN/SAC code if present\","
    , "                \"quantity\": \"number\","
    , "                \"unit_price\": \"number\","
    , "                \"amount\": \"number - line total\""
    , "            \x7d"
    , "        ],"
    , "        \"subtotal\": \"number - sum before taxes\","
    , "        \"tax_details\": \x7b"
    , "            \"cgst\": \"number - Central GST amount\","
    , "            \"sgst\": \"number - State GST amount\", "
    , "            \"igst\": \"number - Integrated GST amount\","
    , "            \"total_tax\": \"number - total tax amount\""
    , "        \x7d,"
    , "        \"total_amount\": \"number - final payable amount\","
    , "        \"currency\": \"string - INR, USD, etc.\","
    , "        \"payment_terms\": \"string - any payment terms mentioned\","
    , "        \"notes\": \"string - any additional notes or remarks\""
    , "    \x7d"
    , "    "
    , "    Important:"
    , "    - Extract numbers as actual numbers, not strings"
    , "    - For Indian invoices, look for GSTIN (15-character alphanumeric)"
    , "    - HSN codes are typically 4-8 digit numbers"
    , "    - If a field is not present in the invoice, use null"
    , "    " ]).data

/-- The response-normalization step (lines 184-195): strip one fenced
block if present, strip whitespace, decode as JSON; on decode failure
build the malformed-reply dictionary whose `raw_response` is the
fence-stripped (not the original) reply text, exactly as the Python
variable `response_text` holds at line 195. -/
def normalizeResponse (response_text : Str) : Json :=
  let cleaned := stripFences response_text
  match jsonDecode (pyStrip cleaned) with
  | .ok parsed_data => parsed_data
  | .error e => malformedObj (parseFailPre ++ e) cleaned

/-- The `try` block of lines 174-197: call the model once, take
`response.content[0].text`, and normalize it; a raised transport
exception or an empty content list becomes the `API call failed`
dictionary. -/
def callAndParse (env : Env) (req : ReqContent) (imgCalls : Nat) : ParseOut :=
  match env.callModel req with
  | .error e => ⟨errorObj (apiFailPre ++ e), some req, none, 1, imgCalls⟩
  | .ok [] => ⟨errorObj (apiFailPre ++ indexErrMsg), some req, none, 1, imgCalls⟩
  | .ok (response_text :: _) =>
    ⟨normalizeResponse response_text, some req, some response_text, 1, imgCalls⟩

/-- Lines 74-197: extract text; if its length exceeds 100 go text-mode,
otherwise render the first page (a falsy image aborts with the no-signal
error before any model call), then call the model and normalize. -/
def parse_invoice_with_claude (env : Env) : ParseOut :=
  let extracted_text := extract_text_from_pdf env.pdfRead
  if 100 < extracted_text.length then
    callAndParse env (.textMode (extraction_prompt ++ textSep ++ extracted_text)) 0
  else
    match (pdf_to_base64_image env.convert env.file).1 with
    | some (c :: rest) =>
      callAndParse env (.imageMode (extraction_prompt ++ imageSuffix) (c :: rest)) 1
    | _ => ⟨errorObj noSignalMsg, none, none, 0, 1⟩

/-! ### Output-shape predicates (spec section 3's two variants) -/

/-- The `InvoiceRecord` field set (spec section 6). -/
def recordFields : List Str :=
  [ "invoice_number".data, "invoice_date".data, "due_date".data, "vendor".data
  , "buyer".data, "line_items".data, "subtotal".data, "tax_details".data
  , "total_amount".data, "currency".data, "payment_terms".data, "notes".data ]

/-- A (possibly partial) `InvoiceRecord`: a dictionary all of whose keys
belong to the schema's field set. -/
def isRecordShape : Json → Bool
  | .obj kvs => kvs.all (fun kv => recordFields.contains kv.1)
  | _ => false

/-- An error value as this module builds them: `{"error": m}` or
`{"error": m, "raw_response": r}`. -/
def isErrorShape : Json → Bool
  | .obj [(k, .str _)] => k == errKey
  | .obj [(k1, .str _), (k2, .str _)] => k1 == errKey && k2 == rawKey
  | _ => false

/-! ### Concrete environments used by witnesses and counterexamples -/

/-- An empty shared file. -/
def emptyFile : FileState := ⟨[], 0⟩

/-- A conversion collaborator that always raises. -/
def noConvert : Str → ConvertOut := fun _ => .exn []

/-- A 101-character text layer, enough to force text-mode. -/
def longPage : Str := List.replicate 101 'a'

/-- A document with a long text layer and a prescribed model client. -/
def textEnv (call : ReqContent → Except Str (List Str)) : Env :=
  ⟨.ok [longPage], emptyFile, noConvert, call⟩

/-- Model replies with a malformed fenced payload. -/
def envFencedBad : Env := textEnv (fun _ => .ok ["```json oops```".data])

/-- Model replies with the bare number `42`. -/
def envBareNum : Env := textEnv (fun _ => .ok ["42".data])

/-- Model client raises a transport error. -/
def envCallFail : Env := textEnv (fun _ => .error "boom".data)

/-- Model replies `null`; used where the reply is irrelevant. -/
def envTextNull : Env := textEnv (fun _ => .ok ["null".data])

/-- No text layer and no renderable page. -/
def envNoSignal : Env := ⟨.fail [], emptyFile, noConvert, fun _ => .ok ["null".data]⟩

/-- Model replies with the minimal record `{"invoice_number": "A1"}`. -/
def envMinimal : Env := textEnv (fun _ => .ok ["\x7b\"invoice_number\": \"A1\"\x7d".data])

/-- Model replies with the bare list `["x"]`. -/
def envBareList : Env := textEnv (fun _ => .ok ["[\"x\"]".data])

/-- Model replies with unfenced non-JSON text. -/
def envPlainBad : Env := textEnv (fun _ => .ok ["notjson".data])

/-! ### Lemmas about `breakOn` and `pyStrip` -/

theorem isPre_self_append : ∀ (s t : Str), isPre s (s ++ t) = true
  | [], _ => rfl
  | a :: s', t => by simp [isPre, isPre_self_append s' t]

theorem isPre_append_left : ∀ (s u x : Str), isPre (s ++ u) x = true → isPre s x = true
  | [], _, _, _ => rfl
  | a :: s', u, [], h => by simp [isPre] at h
  | a :: s', u, b :: x', h => by
    simp [isPre] at h ⊢
    exact ⟨h.1, isPre_append_left s' u x' h.2⟩

theorem breakOn_cons_neg (sep : Str) (a : Char) (s : Str) (h : isPre sep (a :: s) = false) :
    breakOn sep (a :: s) = (breakOn sep s).map (fun p => (a :: p.1, p.2)) := by
  simp [breakOn, h]

theorem breakOn_none_inv {sep : Str} {a : Char} {s : Str} (h : breakOn sep (a :: s) = none) :
    isPre sep (a :: s) = false ∧ breakOn sep s = none := by
  cases hp : isPre sep (a :: s) with
  | true => simp [breakOn, hp] at h
  | false =>
    refine ⟨rfl, ?_⟩
    rw [breakOn_cons_neg sep a s hp] at h
    exact Option.map_eq_none'.mp h

theorem breakOn_self (sep t : Str) (h : sep ≠ []) : breakOn sep (sep ++ t) = some ([], t) := by
  cases sep with
  | nil => exact absurd rfl h
  | cons a s' =>
    show breakOn (a :: s') (a :: (s' ++ t)) = some ([], t)
    rw [breakOn]
    rw [show isPre (a :: s') (a :: (s' ++ t)) = true from isPre_self_append (a :: s') t]
    simp [List.drop_left]

theorem breakOn_none_of_append : ∀ (s u x : Str), s ≠ [] → breakOn s x = none →
    breakOn (s ++ u) x = none
  | s, u, [], hs, _ => by
    cases s with
    | nil => exact absurd rfl hs
    | cons a s' => rfl
  | s, u, b :: x', hs, h => by
    obtain ⟨hp, hrest⟩ := breakOn_none_inv h
    have hp2 : isPre (s ++ u) (b :: x') = false := by
      cases hq : isPre (s ++ u) (b :: x') with
      | false => rfl
      | true => rw [isPre_append_left s u _ hq] at hp; cases hp
    rw [breakOn_cons_neg _ _ _ hp2, breakOn_none_of_append s u x' hs hrest]
    rfl

/-- The marker `"```"` does not start a text whose first character is a newline. -/
theorem isPre_ticks_nl (t : Str) : isPre ticks ('\n' :: t) = false := rfl

/-- The marker `"```json"` does not start a text whose first character is a newline. -/
theorem isPre_fj_nl (t : Str) : isPre fenceJson ('\n' :: t) = false := rfl

/-- The marker `"```json"` does not start `"```\n..."`. -/
theorem isPre_fj_t3 (t : Str) :
    isPre fenceJson ('\x60' :: '\x60' :: '\x60' :: '\n' :: t) = false := rfl

/-- The marker `"```json"` does not start `"``\n..."`. -/
theorem isPre_fj_t2 (t : Str) : isPre fenceJson ('\x60' :: '\x60' :: '\n' :: t) = false := rfl

/-- The marker `"```json"` does not start `"`\n..."`. -/
theorem isPre_fj_t1 (t : Str) : isPre fenceJson ('\x60' :: '\n' :: t) = false := rfl

/-- When `"```"` never occurs in `c`, it cannot start `c ++ '\n' :: t`
either: the newline interrupts any run of backticks. -/
theorem not_isPre_ticks_concat : ∀ (c t : Str), breakOn ticks c = none →
    isPre ticks (c ++ '\n' :: t) = false
  | [], t, _ => rfl
  | [a], t, _ => by
    show isPre ticks (a :: '\n' :: t) = false
    have h : isPre ticks (a :: '\n' :: t) = (('\x60' == a) && false) := rfl
    rw [h, Bool.and_false]
  | [a, b], t, _ => by
    show isPre ticks (a :: b :: '\n' :: t) = false
    have h : isPre ticks (a :: b :: '\n' :: t)
        = (('\x60' == a) && (('\x60' == b) && false)) := rfl
    rw [h, Bool.and_false, Bool.and_false]
  | a :: b :: d :: c₃, t, hc => by
    have h3 : isPre ticks (a :: b :: d :: c₃) = false := (breakOn_none_inv hc).1
    have e1 : isPre ticks (a :: b :: d :: c₃)
        = (('\x60' == a) && (('\x60' == b) && (('\x60' == d) && true))) := rfl
    have e2 : isPre ticks (a :: b :: d :: (c₃ ++ '\n' :: t))
        = (('\x60' == a) && (('\x60' == b) && (('\x60' == d) && true))) := rfl
    show isPre ticks (a :: b :: d :: (c₃ ++ '\n' :: t)) = false
    rw [e2, ← e1, h3]

/-- Scanning `c ++ "\n```"` for `"```"` finds exactly the final fence. -/
theorem breakOn_ticks_closer : ∀ (c : Str), breakOn ticks c = none →
    breakOn ticks (c ++ '\n' :: ticks) = some (c ++ ['\n'], [])
  | [], _ => rfl
  | a :: c', hc => by
    obtain ⟨hp, hc'⟩ := breakOn_none_inv hc
    have hnp : isPre ticks (a :: (c' ++ '\n' :: ticks)) = false :=
      not_isPre_ticks_concat (a :: c') ticks hc
    show breakOn ticks (a :: (c' ++ '\n' :: ticks)) = some (a :: (c' ++ ['\n']), [])
    rw [breakOn_cons_neg _ _ _ hnp, breakOn_ticks_closer c' hc']
    rfl

/-- No occurrence of `"```"` inside `c ++ "\n"` when `c` has none. -/
theorem breakOn_ticks_append_nl_none : ∀ (c : Str), breakOn ticks c = none →
    breakOn ticks (c ++ ['\n']) = none
  | [], _ => rfl
  | a :: c', hc => by
    obtain ⟨hp, hc'⟩ := breakOn_none_inv hc
    have hnp : isPre ticks (a :: (c' ++ ['\n'])) = false :=
      not_isPre_ticks_concat (a :: c') [] hc
    show breakOn ticks (a :: (c' ++ ['\n'])) = none
    rw [breakOn_cons_neg _ _ _ hnp, breakOn_ticks_append_nl_none c' hc']
    rfl

/-- No occurrence of `"```json"` anywhere in `c ++ "\n```"` when `c`
contains no `"```"`: the only backtick run is closed by end-of-input. -/
theorem breakOn_fj_closer_none : ∀ (c : Str), breakOn ticks c = none →
    breakOn fenceJson (c ++ '\n' :: ticks) = none
  | [], _ => rfl
  | a :: c', hc => by
    obtain ⟨hp, hc'⟩ := breakOn_none_inv hc
    have hnp : isPre fenceJson (a :: (c' ++ '\n' :: ticks)) = false := by
      cases hq : isPre fenceJson (a :: (c' ++ '\n' :: ticks)) with
      | false => rfl
      | true =>
        have h2 : isPre ticks (a :: (c' ++ '\n' :: ticks)) = true :=
          isPre_append_left ticks ['j', 's', 'o', 'n'] _ hq
        have h3 : isPre ticks (a :: (c' ++ '\n' :: ticks)) = false :=
          not_isPre_ticks_concat (a :: c') ticks hc
        rw [h3] at h2
        cases h2
    show breakOn fenceJson (a :: (c' ++ '\n' :: ticks)) = none
    rw [breakOn_cons_neg _ _ _ hnp, breakOn_fj_closer_none c' hc']
    rfl

theorem stripFences_of_no_fence (c : Str) (hfj : breakOn fenceJson c = none)
    (ht : breakOn ticks c = none) : stripFences c = c := by
  simp [stripFences, hfj, ht]

theorem stripFences_tagged (c : Str) (hc : breakOn ticks c = none) :
    stripFences (wrapTagged c) = '\n' :: c ++ ['\n'] := by
  have h0 : breakOn fenceJson (wrapTagged c) = some ([], '\n' :: c ++ '\n' :: ticks) :=
    breakOn_self fenceJson _ (by decide)
  have h1 : breakOn fenceJson ('\n' :: (c ++ '\n' :: ticks)) = none := by
    rw [breakOn_cons_neg _ _ _ (isPre_fj_nl _), breakOn_fj_closer_none c hc]
    rfl
  have h2 : breakOn ticks ('\n' :: (c ++ '\n' :: ticks)) = some ('\n' :: (c ++ ['\n']), []) := by
    rw [breakOn_cons_neg _ _ _ (isPre_ticks_nl _), breakOn_ticks_closer c hc]
    rfl
  simp [stripFences, h0, takeUntil, h1, h2]

theorem stripFences_bare (c : Str) (hc : breakOn ticks c = none) :
    stripFences (wrapBare c) = '\n' :: c ++ ['\n'] := by
  have h0 : breakOn fenceJson (wrapBare c) = none := by
    show breakOn fenceJson ('\x60' :: '\x60' :: '\x60' :: '\n' :: (c ++ '\n' :: ticks)) = none
    rw [breakOn_cons_neg _ _ _ (isPre_fj_t3 _), breakOn_cons_neg _ _ _ (isPre_fj_t2 _),
      breakOn_cons_neg _ _ _ (isPre_fj_t1 _), breakOn_cons_neg _ _ _ (isPre_fj_nl _),
      breakOn_fj_closer_none c hc]
    rfl
  have h1 : breakOn ticks (wrapBare c) = some ([], '\n' :: c ++ '\n' :: ticks) :=
    breakOn_self ticks _ (by decide)
  have h2 : breakOn ticks ('\n' :: (c ++ '\n' :: ticks)) = some ('\n' :: (c ++ ['\n']), []) := by
    rw [breakOn_cons_neg _ _ _ (isPre_ticks_nl _), breakOn_ticks_closer c hc]
    rfl
  have h3 : breakOn ticks ('\n' :: (c ++ ['\n'])) = none := by
    rw [breakOn_cons_neg _ _ _ (isPre_ticks_nl _), breakOn_ticks_append_nl_none c hc]
    rfl
  simp [stripFences, h0, h1, takeUntil, h2, h3]

theorem dropWhile_ws_append (c : Str) :
    List.dropWhile Char.isWhitespace (c ++ ['\n'])
      = if List.dropWhile Char.isWhitespace c = [] then []
        else List.dropWhile Char.isWhitespace c ++ ['\n'] := by
  induction c with
  | nil => simp
  | cons a c' ih =>
    by_cases ha : Char.isWhitespace a
    · simp only [List.cons_append, List.dropWhile_cons, ha, if_true]
      exact ih
    · simp [List.dropWhile_cons, ha]

/-- Stripping removes the wrapping newlines that fence removal leaves. -/
theorem pyStrip_wrap (c : Str) : pyStrip ('\n' :: c ++ ['\n']) = pyStrip c := by
  unfold pyStrip
  rw [show ('\n' :: c ++ ['\n']) = '\n' :: (c ++ ['\n']) from rfl]
  rw [List.dropWhile_cons]
  simp only [show Char.isWhitespace '\n' = true from rfl, if_true]
  rw [dropWhile_ws_append]
  by_cases h : List.dropWhile Char.isWhitespace c = []
  · simp [h]
  · rw [if_neg h]
    rw [List.reverse_append]
    simp only [List.reverse_cons, List.reverse_nil, List.nil_append, List.cons_append,
      List.dropWhile_cons]
    simp only [show Char.isWhitespace '\n' = true from rfl, if_true]

/-! ### Bridging lemmas about the orchestrator -/

/-- Every invocation either goes through one model call (`callAndParse`)
or aborts with the no-signal error before any call. -/
theorem parse_cases (env : Env) :
    (∃ req ic, parse_invoice_with_claude env = callAndParse env req ic)
      ∨ parse_invoice_with_claude env = ⟨errorObj noSignalMsg, none, none, 0, 1⟩ := by
  unfold parse_invoice_with_claude
  by_cases h : 100 < (extract_text_from_pdf env.pdfRead).length
  · left
    exact ⟨_, _, by rw [if_pos h]⟩
  · rw [if_neg h]
    cases himg : (pdf_to_base64_image env.convert env.file).1 with
    | none => right; rfl
    | some s =>
      cases s with
      | nil => right; rfl
      | cons c rest => left; exact ⟨_, _, rfl⟩

/-- If a reply was consumed, the returned value is its normalization. -/
theorem callAndParse_reply_inv (env : Env) (req : ReqContent) (ic : Nat) (r : Str)
    (hr : (callAndParse env req ic).reply = some r) :
    (callAndParse env req ic).result = normalizeResponse r := by
  cases hcm : env.callModel req with
  | error e => simp [callAndParse, hcm] at hr
  | ok l =>
    cases l with
    | nil => simp [callAndParse, hcm] at hr
    | cons x xs =>
      simp only [callAndParse, hcm] at hr ⊢
      cases hr
      rfl

/-- Orchestrator-level version of `callAndParse_reply_inv`. -/
theorem parse_reply_result (env : Env) (r : Str)
    (hr : (parse_invoice_with_claude env).reply = some r) :
    (parse_invoice_with_claude env).result = normalizeResponse r := by
  rcases parse_cases env with ⟨req, ic, hpe⟩ | hpe
  · rw [hpe] at hr ⊢
    exact callAndParse_reply_inv env req ic r hr
  · rw [hpe] at hr
    cases hr

/-- The value returned by one model call is a code-built error
dictionary or the decoded reply. -/
theorem callAndParse_variants (env : Env) (req : ReqContent) (ic : Nat) :
    (∃ m, (callAndParse env req ic).result = errorObj m)
      ∨ (∃ m rr, (callAndParse env req ic).result = malformedObj m rr)
      ∨ (∃ r, (callAndParse env req ic).reply = some r
          ∧ jsonDecode (pyStrip (stripFences r)) = .ok ((callAndParse env req ic).result)) := by
  cases hcm : env.callModel req with
  | error e => exact .inl ⟨apiFailPre ++ e, by simp [callAndParse, hcm]⟩
  | ok l =>
    cases l with
    | nil => exact .inl ⟨apiFailPre ++ indexErrMsg, by simp [callAndParse, hcm]⟩
    | cons x xs =>
      cases hd : jsonDecode (pyStrip (stripFences x)) with
      | error e =>
        refine .inr (.inl ⟨parseFailPre ++ e, stripFences x, ?_⟩)
        simp [callAndParse, hcm, normalizeResponse, hd]
      | ok j =>
        refine .inr (.inr ⟨x, by simp [callAndParse, hcm], ?_⟩)
        simp [callAndParse, hcm, normalizeResponse, hd]

/-- A record-shaped value is never error-shaped: the key `"error"` is
not in the schema's field set. -/
theorem isErrorShape_false_of_record : ∀ (j : Json), isRecordShape j = true → isErrorShape j = false := by
  intro j hr
  cases j with
  | null => rfl
  | bool b => rfl
  | num q => rfl
  | str s => rfl
  | arr l => rfl
  | obj kvs =>
    cases kvs with
    | nil => rfl
    | cons kv₁ rest =>
      obtain ⟨k₁, v₁⟩ := kv₁
      have hck : recordFields.contains k₁ = true := by
        simp only [isRecordShape, List.all_cons, Bool.and_eq_true] at hr
        exact hr.1
      cases rest with
      | nil =>
        cases v₁ with
        | null => rfl
        | bool b => rfl
        | num q => rfl
        | arr l => rfl
        | obj o => rfl
        | str s =>
          cases hk : k₁ == errKey with
          | false => exact hk
          | true =>
            have hke : k₁ = errKey := eq_of_beq hk
            rw [hke] at hck
            exact absurd hck (by decide)
      | cons kv₂ rest₂ =>
        obtain ⟨k₂, v₂⟩ := kv₂
        cases rest₂ with
        | cons kv₃ rest₃ =>
          obtain ⟨k₃, v₃⟩ := kv₃
          cases v₁ <;> cases v₂ <;> rfl
        | nil =>
          cases v₁ with
          | null => rfl
          | bool b => rfl
          | num q => rfl
          | arr l => rfl
          | obj o => rfl
          | str s₁ =>
            cases v₂ with
            | null => rfl
            | bool b => rfl
            | num q => rfl
            | arr l => rfl
            | obj o => rfl
            | str s₂ =>
              cases hk : k₁ == errKey with
              | false =>
                show (k₁ == errKey && (k₂ == rawKey)) = false
                rw [hk, Bool.false_and]
              | true =>
                have hke : k₁ = errKey := eq_of_beq hk
                rw [hke] at hck
                exact absurd hck (by decide)

/-- No `Json` value is simultaneously record-shaped and error-shaped. -/
theorem record_error_disjoint (j : Json) : (isRecordShape j && isErrorShape j) = false := by
  cases hr : isRecordShape j with
  | false => rw [Bool.false_and]
  | true => rw [Bool.true_and]; exact isErrorShape_false_of_record j hr

/-- One model call always records its request and a single invocation of
the client, and passes the image-renderer invocation count through. -/
theorem callAndParse_fields (env : Env) (req : ReqContent) (ic : Nat) :
    (callAndParse env req ic).request = some req
      ∧ (callAndParse env req ic).modelCalls = 1
      ∧ (callAndParse env req ic).imageCalls = ic := by
  cases hcm : env.callModel req with
  | error e => simp [callAndParse, hcm]
  | ok l =>
    cases l with
    | nil => simp [callAndParse, hcm]
    | cons x xs => simp [callAndParse, hcm]

/-- The accumulator loop of lines 38-41, written without its accumulator. -/
theorem foldl_collect (pages : List Str) (acc : Str) :
    pages.foldl (fun text t => if t.isEmpty then text else text ++ t ++ ['\n']) acc
      = acc ++ joinPages pages := by
  induction pages generalizing acc with
  | nil => simp [joinPages]
  | cons p ps ih =>
    by_cases hp : p.isEmpty
    · have hj : joinPages (p :: ps) = joinPages ps := by
        simp [joinPages, List.filter_cons, hp]
      simp only [List.foldl_cons]
      rw [if_pos hp, ih acc, hj]
    · have hj : joinPages (p :: ps) = p ++ '\n' :: joinPages ps := by
        simp [joinPages, List.filter_cons, hp]
      simp only [List.foldl_cons]
      rw [if_neg hp, ih (acc ++ p ++ ['\n']), hj]
      simp [List.append_assoc]

/-! ### The claims -/

/-- C1, counterexample: for the model reply `"```json oops```"` the
decode fails and the returned `raw_response` is the fence-stripped text
`" oops"`, which differs from the original raw reply — so the
raw-response field is NOT the original reply byte-for-byte. -/
theorem C1_raw_response_not_original :
    (parse_invoice_with_claude envFencedBad).reply = some ("```json oops```".data)
      ∧ (parse_invoice_with_claude envFencedBad).result
          = malformedObj (parseFailPre ++ "Expecting value".data) (" oops".data)
      ∧ " oops".data ≠ "```json oops```".data :=
  ⟨rfl, rfl, by decide⟩

/-- C1, amended: for every model reply that cannot be decoded,
`parse_invoice_with_claude` returns a malformed-reply error carrying a
decode-failure description and a `raw_response` field that equals the
FENCE-STRIPPED reply text — which is the original reply byte-for-byte
exactly when the reply contains no fence marker. -/
theorem C1_malformed_reply_raw_is_stripped (env : Env) (r : Str) (e : Str)
    (hr : (parse_invoice_with_claude env).reply = some r)
    (he : jsonDecode (pyStrip (stripFences r)) = .error e) :
    (parse_invoice_with_claude env).result = malformedObj (parseFailPre ++ e) (stripFences r)
      ∧ (breakOn fenceJson r = none → breakOn ticks r = none → stripFences r = r) := by
  constructor
  · rw [parse_reply_result env r hr]
    simp [normalizeResponse, he]
  · intro h1 h2
    exact stripFences_of_no_fence r h1 h2

/-- C1 witness: the unfenced malformed reply `"notjson"` produces the
malformed-reply dictionary whose `raw_response` is the reply itself. -/
theorem C1_malformed_reply_raw_is_stripped_witness :
    (parse_invoice_with_claude envPlainBad).result
        = malformedObj (parseFailPre ++ "Expecting value".data) (stripFences ("notjson".data))
      ∧ (breakOn fenceJson ("notjson".data) = none → breakOn ticks ("notjson".data) = none →
          stripFences ("notjson".data) = "notjson".data) :=
  C1_malformed_reply_raw_is_stripped envPlainBad ("notjson".data) ("Expecting value".data) rfl rfl

/-- C2, counterexample: when the model reply is the bare number `42`,
the returned value is neither a (possibly partial) `InvoiceRecord`
dictionary nor an error value — the "never neither" half of the claim
fails. -/
theorem C2_bare_number_is_neither :
    isRecordShape (parse_invoice_with_claude envBareNum).result = false
      ∧ isErrorShape (parse_invoice_with_claude envBareNum).result = false
      ∧ (parse_invoice_with_claude envBareNum).reply = some ("42".data) :=
  ⟨rfl, rfl, rfl⟩

/-- C2, amended: every invocation returns exactly one value, which is
either a code-built error dictionary (a message, optionally with the raw
reply) or the decoded model reply returned unchanged; a record-shaped
value is never simultaneously error-shaped, but the decoded reply is not
validated, so it need not fall in either variant. -/
theorem C2_result_error_or_decoded (env : Env) :
    ((∃ m, (parse_invoice_with_claude env).result = errorObj m)
        ∨ (∃ m rr, (parse_invoice_with_claude env).result = malformedObj m rr)
        ∨ (∃ r, (parse_invoice_with_claude env).reply = some r
            ∧ jsonDecode (pyStrip (stripFences r)) = .ok ((parse_invoice_with_claude env).result)))
      ∧ (isRecordShape (parse_invoice_with_claude env).result
          && isErrorShape (parse_invoice_with_claude env).result) = false := by
  refine ⟨?_, record_error_disjoint _⟩
  rcases parse_cases env with ⟨req, ic, hpe⟩ | hpe
  · rw [hpe]
    exact callAndParse_variants env req ic
  · rw [hpe]
    exact .inl ⟨noSignalMsg, rfl⟩

/-- C3: whenever the extracted text is strictly longer than 100
characters the orchestrator submits the text-mode request — the prompt,
the glue text, and the raw extracted text — and never invokes
`pdf_to_base64_image`. -/
theorem C3_long_text_uses_text_mode (env : Env)
    (h : 100 < (extract_text_from_pdf env.pdfRead).length) :
    (parse_invoice_with_claude env).request
        = some (.textMode (extraction_prompt ++ textSep ++ extract_text_from_pdf env.pdfRead))
      ∧ (parse_invoice_with_claude env).imageCalls = 0 := by
  have hpe : parse_invoice_with_claude env
      = callAndParse env (.textMode (extraction_prompt ++ textSep
          ++ extract_text_from_pdf env.pdfRead)) 0 := by
    unfold parse_invoice_with_claude
    rw [if_pos h]
  rw [hpe]
  exact ⟨(callAndParse_fields env _ 0).1, (callAndParse_fields env _ 0).2.2⟩

/-- C3 witness: a document with a 101-character text layer. -/
theorem C3_long_text_uses_text_mode_witness :
    (parse_invoice_with_claude envTextNull).request
        = some (.textMode (extraction_prompt ++ textSep
            ++ extract_text_from_pdf envTextNull.pdfRead))
      ∧ (parse_invoice_with_claude envTextNull).imageCalls = 0 :=
  C3_long_text_uses_text_mode envTextNull (by decide)

/-- C4: when the extracted text has at most 100 characters and the image
renderer yields no image, the result is exactly the no-signal error
dictionary and no request is ever submitted to the model client. -/
theorem C4_no_signal_error (env : Env)
    (h1 : (extract_text_from_pdf env.pdfRead).length ≤ 100)
    (h2 : (pdf_to_base64_image env.convert env.file).1 = none) :
    (parse_invoice_with_claude env).result = errorObj noSignalMsg
      ∧ (parse_invoice_with_claude env).modelCalls = 0
      ∧ (parse_invoice_with_claude env).request = none := by
  have hn : ¬ 100 < (extract_text_from_pdf env.pdfRead).length := by omega
  unfold parse_invoice_with_claude
  rw [if_neg hn, h2]
  exact ⟨rfl, rfl, rfl⟩

/-- C4 witness: an unreadable document (text extraction raises, page
conversion raises). -/
theorem C4_no_signal_error_witness :
    (parse_invoice_with_claude envNoSignal).result = errorObj noSignalMsg
      ∧ (parse_invoice_with_claude envNoSignal).modelCalls = 0
      ∧ (parse_invoice_with_claude envNoSignal).request = none :=
  C4_no_signal_error envNoSignal (by decide) rfl

/-- C5: for any inner content free of the fence marker `"```"`, the
text handed to the JSON decoder is the same — namely the stripped
content — whether the reply is wrapped in a language-tagged fence, in a
bare fence, or not wrapped at all. -/
theorem C5_fence_stripping_agrees (c : Str) (hc : breakOn ticks c = none) :
    decoderInput (wrapTagged c) = pyStrip c
      ∧ decoderInput (wrapBare c) = pyStrip c
      ∧ decoderInput c = pyStrip c := by
  have hfj : breakOn fenceJson c = none :=
    breakOn_none_of_append ticks ['j', 's', 'o', 'n'] c (by decide) hc
  refine ⟨?_, ?_, ?_⟩
  · unfold decoderInput
    rw [stripFences_tagged c hc]
    exact pyStrip_wrap c
  · unfold decoderInput
    rw [stripFences_bare c hc]
    exact pyStrip_wrap c
  · unfold decoderInput
    rw [stripFences_of_no_fence c hfj hc]

/-- C5 witness: the content `"42"`. -/
theorem C5_fence_stripping_agrees_witness :
    breakOn ticks ("42".data) = none
      ∧ (decoderInput (wrapTagged ("42".data)) = pyStrip ("42".data)
        ∧ decoderInput (wrapBare ("42".data)) = pyStrip ("42".data)
        ∧ decoderInput ("42".data) = pyStrip ("42".data)) :=
  ⟨by decide, C5_fence_stripping_agrees ("42".data) (by decide)⟩

/-- C6: when the model client raises a transport error on every request
and the pipeline reaches the call, the returned value is the
`API call failed` error dictionary carrying the exception's message and
the client is invoked exactly once (the embedding is a total function,
so nothing escapes the boundary). -/
theorem C6_transport_failure_surfaces_once (env : Env) (e : Str)
    (hfail : ∀ r, env.callModel r = .error e)
    (req : ReqContent) (hreach : (parse_invoice_with_claude env).request = some req) :
    (parse_invoice_with_claude env).result = errorObj (apiFailPre ++ e)
      ∧ (parse_invoice_with_claude env).modelCalls = 1 := by
  rcases parse_cases env with ⟨req', ic, hpe⟩ | hpe
  · rw [hpe]
    simp [callAndParse, hfail req']
  · rw [hpe] at hreach
    cases hreach

/-- C6 witness: a model client that always raises `boom`. -/
theorem C6_transport_failure_surfaces_once_witness :
    (parse_invoice_with_claude envCallFail).result = errorObj (apiFailPre ++ "boom".data)
      ∧ (parse_invoice_with_claude envCallFail).modelCalls = 1 :=
  C6_transport_failure_surfaces_once envCallFail ("boom".data) (fun _ => rfl)
    (.textMode (extraction_prompt ++ textSep ++ extract_text_from_pdf envCallFail.pdfRead)) rfl

/-- C7: `extract_text_from_pdf` is total (it is a Lean function, so it
never raises) and returns either the whitespace-trimmed newline-joined
concatenation of the non-empty per-page texts, or the empty string (in
particular on any internal failure). -/
theorem C7_extract_text_total (r : PdfRead) :
    (∃ pages, r = PdfRead.ok pages ∧ extract_text_from_pdf r = pyStrip (joinPages pages))
      ∨ extract_text_from_pdf r = [] := by
  cases r with
  | fail m => exact .inr rfl
  | ok pages =>
    refine .inl ⟨pages, rfl, ?_⟩
    show pyStrip (pages.foldl (fun text t => if t.isEmpty then text else text ++ t ++ ['\n']) [])
      = pyStrip (joinPages pages)
    rw [foldl_collect pages []]
    simp

/-- C8: after `pdf_to_base64_image` returns — image or no image — the
shared file object holds the same bytes with its cursor reset to the
beginning, so a full re-read yields the whole document again; failures
surface as `none` (the embedding is total, so no exception escapes). -/
theorem C8_image_renderer_resets_cursor (convert : Str → ConvertOut) (f : FileState) :
    (pdf_to_base64_image convert f).2 = ⟨f.bytes, 0⟩
      ∧ ((pdf_to_base64_image convert f).2.bytes.drop ((pdf_to_base64_image convert f).2.cursor)
          = f.bytes) := by
  cases hcv : convert (f.bytes.drop f.cursor) with
  | exn m => simp [pdf_to_base64_image, hcv]
  | images imgs =>
    cases imgs with
    | nil => simp [pdf_to_base64_image, hcv]
    | cons i rest =>
      cases i with
      | none => simp [pdf_to_base64_image, hcv]
      | some b => simp [pdf_to_base64_image, hcv]

/-- C9: the minimal reply `{"invoice_number": "A1"}` decodes to a
successful record containing exactly the field `invoice_number = "A1"`
(all other fields absent), not an error. -/
theorem C9_minimal_reply_decodes :
    (parse_invoice_with_claude envMinimal).result
        = Json.obj [("invoice_number".data, Json.str ("A1".data))]
      ∧ isErrorShape (parse_invoice_with_claude envMinimal).result = false
      ∧ isRecordShape (parse_invoice_with_claude envMinimal).result = true :=
  ⟨rfl, rfl, by decide⟩

/-- C10: whatever the reply decodes to after fence stripping — record or
not — is returned unchanged as the successful result; no schema
validation happens. -/
theorem C10_decoded_value_returned (env : Env) (r : Str) (j : Json)
    (hr : (parse_invoice_with_claude env).reply = some r)
    (hj : jsonDecode (pyStrip (stripFences r)) = .ok j) :
    (parse_invoice_with_claude env).result = j := by
  rw [parse_reply_result env r hr]
  simp [normalizeResponse, hj]

/-- C10 witness: the bare list reply `["x"]` is returned as-is and is
not an error value. -/
theorem C10_decoded_value_returned_witness :
    (parse_invoice_with_claude envBareList).result = Json.arr [Json.str ("x".data)]
      ∧ isErrorShape (parse_invoice_with_claude envBareList).result = false :=
  ⟨C10_decoded_value_returned envBareList ("[\"x\"]".data) (Json.arr [Json.str ("x".data)]) rfl rfl,
    rfl⟩

end InvoiceParser
